import Mathlib

/-!
Verification development for `download.py` of cpp-linter/clang-tools-wheel.

The script is shallowly embedded: every Python string operation is modelled
on `List Char` (Python strings are sequences of code points), and the three
effects (the `ldd --version` subprocess, the HTTP fetch of release metadata,
and the file transfer) are passed in as explicit observation parameters
(`Option String` for the subprocess stderr, `Except String _` for the two
network operations).
-/

namespace ClangToolsWheel

/-- Model of Python `sub in s` (substring test): `hasSub p l` is true iff `p`
occurs contiguously inside `l`. -/
def hasSub (p : List Char) : List Char → Bool
  | [] => p.isPrefixOf []
  | c :: t => p.isPrefixOf (c :: t) || hasSub p t

/-- Python `s.startswith(p)` on the code-point sequences. -/
def strStarts (s p : String) : Bool := p.data.isPrefixOf s.data

/-- Python `s.endswith(p)` on the code-point sequences. -/
def strEnds (s p : String) : Bool := p.data.isSuffixOf s.data

/-- Python `p in s` (substring containment). -/
def strHas (s p : String) : Bool := hasSub p.data s.data

/-- Python `s.lower()` (ASCII case folding suffices for the uses here). -/
def strLower (s : String) : String := String.mk (s.data.map Char.toLower)

/-- Python `s.replace("-", "_")`: with single-character pattern and
replacement this is a character-wise map. -/
def replace_dash_underscore (s : String) : String :=
  String.mk (s.data.map (fun c => if c == '-' then '_' else c))

/-- Python `s.lstrip("v")`: remove every leading `'v'`. -/
def lstrip_v (s : String) : String :=
  String.mk (s.data.dropWhile (fun c => c == 'v'))

/-- An entry of a release's `assets` array, as used by the script
(`name`, `browser_download_url`, `size`). -/
structure Asset where
  name : String
  browser_download_url : String
  size : Nat
deriving DecidableEq

/-- The fields of the release JSON object the script reads. -/
structure ReleaseInfo where
  tag_name : String
  assets : List Asset

/-- The `arch_map` dictionary of `get_platform_tag` (download.py lines
24-34), as an association list in source order. -/
def arch_map : List (String × String) :=
  [("x86_64", "x86_64"), ("amd64", "x86_64"), ("aarch64", "aarch64"),
   ("arm64", "arm64"), ("armv7l", "armv7l"), ("i386", "i686"),
   ("i686", "i686"), ("ppc64le", "ppc64le"), ("s390x", "s390x")]

/-- Python `arch_map.get(machine, machine)` (download.py line 36). -/
def archMap (machine : String) : String :=
  match arch_map.find? (fun kv => kv.1 == machine) with
  | some kv => kv.2
  | none => machine

/-- The libc detection of download.py lines 46-57: `ldd_stderr` is
`some out` when `subprocess.run(["ldd", "--version"], ...)` returned with
standard-error text `out`, and `none` when the call raised
`FileNotFoundError` or `SubprocessError`. -/
def detectLibc (ldd_stderr : Option String) : String :=
  match ldd_stderr with
  | some out => if strHas (strLower out) "musl" then "musllinux" else "manylinux"
  | none => "manylinux"

/-- `get_platform_tag` (download.py lines 18-93). The parameters `system`
and `machine` are the values of the local variables of the same names after
lines 20-21 (`platform.system().lower()`, `platform.machine().lower()`);
`ldd_stderr` is the subprocess observation as in `detectLibc`. The Python
`raise ValueError` fall-through at line 93 is the `Except.error` case; it is
reached both for an unknown OS and when the Linux manylinux branch matches
no architecture. -/
def get_platform_tag (system machine : String) (ldd_stderr : Option String) :
    Except String (List String) :=
  let arch := archMap machine
  if system == "darwin" then
    if (["arm64", "aarch64"] : List String).contains arch then
      Except.ok ["macosx_11_0_arm64"]
    else
      Except.ok ["macosx_10_9_x86_64"]
  else if system == "linux" then
    let libc := detectLibc ldd_stderr
    if libc == "manylinux" then
      if arch == "x86_64" then
        Except.ok ["manylinux_2_27_x86_64.manylinux_2_28_x86_64",
                   "manylinux_2_17_x86_64.manylinux2014_x86_64"]
      else if arch == "aarch64" then
        Except.ok ["manylinux_2_26_aarch64.manylinux_2_28_aarch64",
                   "manylinux_2_17_aarch64.manylinux2014_aarch64"]
      else if arch == "i686" then
        Except.ok ["manylinux_2_26_i686.manylinux_2_28_i686",
                   "manylinux_2_17_i686.manylinux2014_i686"]
      else if arch == "ppc64le" then
        Except.ok ["manylinux_2_26_ppc64le.manylinux_2_28_ppc64le"]
      else if arch == "s390x" then
        Except.ok ["manylinux_2_26_s390x.manylinux_2_28_s390x"]
      else if arch == "armv7l" then
        Except.ok ["manylinux_2_31_armv7l"]
      else
        Except.error ("Unsupported platform: " ++ system ++ " " ++ machine)
    else
      Except.ok ["musllinux_1_2_" ++ arch]
  else if system == "windows" then
    if arch == "amd64" || arch == "x86_64" then Except.ok ["win_amd64"]
    else if arch == "arm64" then Except.ok ["win_arm64"]
    else Except.ok ["win32"]
  else
    Except.error ("Unsupported platform: " ++ system ++ " " ++ machine)

/-- The URL built by `get_release_info` (download.py lines 98-103). -/
def build_release_url (repo : String) (version : Option String) : String :=
  match version with
  | some v =>
      "https://api.github.com/repos/" ++ repo ++ "/releases/tags/v" ++ lstrip_v v
  | none => "https://api.github.com/repos/" ++ repo ++ "/releases/latest"

/-- The error wrapping of `get_release_info` (download.py lines 105-114):
`fetch` is the outcome of `urlopen` + `json.loads`, with `Except.error e`
standing for any raised exception with message `e`. -/
def get_release_info (version : Option String) (fetch : Except String ReleaseInfo) :
    Except String ReleaseInfo :=
  match fetch with
  | Except.ok info => Except.ok info
  | Except.error e =>
    match version with
    | some v =>
        Except.error ("Failed to fetch release info for version " ++ v ++ ": " ++ e)
    | none =>
        Except.error ("Failed to fetch latest release info: " ++ e)

/-- The wheel filename pattern built in `find_wheel_asset` (download.py
lines 127-135): `tool_name` plus `-`, then the version plus `-` when one was
given, then the fixed middle segment. -/
def wheel_pattern (tool_name : String) (version : Option String) : String :=
  let p := tool_name ++ "-"
  let p := match version with
    | some v => p ++ v ++ "-"
    | none => p
  p ++ "py2.py3-none-"

/-- The asset test of the inner loop of `find_wheel_asset` (download.py
lines 141-148): starts with the hyphenated or the underscored pattern, ends
with `.whl`, and contains the platform tag. -/
def assetMatches (tool : String) (version : Option String) (platform_tag : String)
    (asset : Asset) : Bool :=
  (strStarts asset.name (wheel_pattern tool version) ||
   strStarts asset.name (wheel_pattern (replace_dash_underscore tool) version)) &&
  strEnds asset.name ".whl" && strHas asset.name platform_tag

/-- `find_wheel_asset` (download.py lines 122-151): the outer loop walks
`platform_tags` in order, the inner loop walks `assets` in order and returns
the first asset passing `assetMatches`; `none` models the final
`return None`. -/
def find_wheel_asset (assets : List Asset) (tool : String)
    (platform_tags : List String) (version : Option String) : Option Asset :=
  match platform_tags with
  | [] => none
  | tag :: rest =>
    match assets.find? (assetMatches tool version tag) with
    | some a => some a
    | none => find_wheel_asset assets tool rest version

/-- `download_file` (download.py lines 154-163): `transfer` is the outcome
of `urlretrieve` (`Except.error e` for any raised exception). The result is
the printed lines paired with the returned boolean. -/
def download_file (filename : String) (transfer : Except String Unit) :
    List String × Bool :=
  match transfer with
  | Except.ok _ =>
      (["Downloading " ++ filename ++ "...",
        "Successfully downloaded " ++ filename], true)
  | Except.error e =>
      (["Downloading " ++ filename ++ "...",
        "Failed to download " ++ filename ++ ": " ++ e], false)

/-- Python `name.replace(".whl", "")` (download.py line 235): remove every
occurrence of `.whl`, scanning left to right. -/
def removeWhl : List Char → List Char
  | '.' :: 'w' :: 'h' :: 'l' :: rest => removeWhl rest
  | c :: rest => c :: removeWhl rest
  | [] => []

/-- Python `s.split("-")` for the one-character separator `-`
(download.py line 236). -/
def splitOnDash : List Char → List (List Char)
  | [] => [[]]
  | c :: rest =>
    if c == '-' then [] :: splitOnDash rest
    else
      match splitOnDash rest with
      | [] => [[c]]
      | w :: ws => (c :: w) :: ws

/-- The platform extraction of the listing mode (download.py lines
235-240): strip `.whl`, split on `-`, and when at least 5 parts result,
join the parts from index 4 on with `-`; fewer parts contribute nothing. -/
def extract_platform (name : String) : Option String :=
  let parts := (splitOnDash (removeWhl name.data)).map String.mk
  if parts.length >= 5 then
    some (String.intercalate "-" (parts.drop 4))
  else
    none

/-- Lexicographic order on code-point sequences, the order Python `sorted`
uses on strings. -/
def charListLt : List Char → List Char → Bool
  | [], [] => false
  | [], _ :: _ => true
  | _ :: _, [] => false
  | a :: as, b :: bs =>
    if a.toNat < b.toNat then true
    else if a.toNat == b.toNat then charListLt as bs
    else false

/-- Ascending insertion used to model Python `sorted`. -/
def insertSorted (x : String) : List String → List String
  | [] => [x]
  | y :: ys => if charListLt y.data x.data then y :: insertSorted x ys else x :: y :: ys

/-- Python `sorted` on a list of strings. -/
def sortStrings (l : List String) : List String := l.foldr insertSorted []

/-- The `--list-platforms` branch of `main` (download.py lines 217-243):
filter the release's assets to the requested tool's wheels, extract the
platform part of each name, deduplicate (the Python `set`), and sort. The
result is the list of printed platform strings in print order. -/
def list_platforms (tool : String) (assets : List Asset) : List String :=
  let tool_underscore := replace_dash_underscore tool
  let tool_assets := assets.filter (fun a =>
    (strStarts a.name (tool ++ "-") || strStarts a.name (tool_underscore ++ "-")) &&
    strEnds a.name ".whl")
  let platforms := (tool_assets.filterMap (fun a => extract_platform a.name)).eraseDups
  sortStrings platforms

theorem isPrefixOf_append_self (p u : List Char) : p.isPrefixOf (p ++ u) = true := by
  induction p with
  | nil => simp [List.isPrefixOf]
  | cons a as ih => simp [List.isPrefixOf, ih]

theorem hasSub_of_isPrefixOf {p l : List Char} (h : p.isPrefixOf l = true) :
    hasSub p l = true := by
  cases l with
  | nil => simpa [hasSub] using h
  | cons c t => simp [hasSub, h]

theorem hasSub_cons {p t : List Char} (c : Char) (h : hasSub p t = true) :
    hasSub p (c :: t) = true := by
  simp [hasSub, h]

theorem hasSub_append_middle (pre p post : List Char) :
    hasSub p (pre ++ (p ++ post)) = true := by
  induction pre with
  | nil => exact hasSub_of_isPrefixOf (isPrefixOf_append_self p post)
  | cons c cs ih => exact hasSub_cons c ih

theorem strHas_append_middle (pre mid post : String) :
    strHas (pre ++ mid ++ post) mid = true := by
  unfold strHas
  have h : (pre ++ mid ++ post).data = pre.data ++ (mid.data ++ post.data) := by
    simp [String.data_append]
  rw [h]
  exact hasSub_append_middle pre.data mid.data post.data

theorem strHas_append_right (pre mid : String) : strHas (pre ++ mid) mid = true := by
  have h := strHas_append_middle pre mid ""
  simpa using h

/-- C7: the architecture alias normalization is idempotent: every value of
`arch_map` is itself a fixed point of the table, and unmapped machine names
pass through unchanged, so a second normalization changes nothing. -/
theorem archMap_idempotent (machine : String) :
    archMap (archMap machine) = archMap machine := by
  have hfix : ∀ kv ∈ arch_map, archMap kv.2 = kv.2 := by decide
  cases hf : arch_map.find? (fun kv => kv.1 == machine) with
  | none => simp [archMap, hf]
  | some kv =>
    have hm : kv ∈ arch_map := List.mem_of_find?_eq_some hf
    have h1 : archMap machine = kv.2 := by simp [archMap, hf]
    rw [h1]
    exact hfix kv hm

/-- C8: the downloader is total on both transfer outcomes: a failing
transfer is absorbed into a printed failure line and the return value
`false`, a completing transfer into a printed confirmation and `true`;
no exception propagates. -/
theorem download_file_total (filename e : String) :
    download_file filename (Except.error e) =
      (["Downloading " ++ filename ++ "...",
        "Failed to download " ++ filename ++ ": " ++ e], false) ∧
    download_file filename (Except.ok ()) =
      (["Downloading " ++ filename ++ "...",
        "Successfully downloaded " ++ filename], true) :=
  ⟨rfl, rfl⟩

/-- C9: the release-fetch URL is invariant under a leading `v` on the
version string, because every leading `v` is stripped before the single
`v` of the tag URL is re-added. -/
theorem build_release_url_v_invariant (repo s : String) :
    build_release_url repo (some ("v" ++ s)) = build_release_url repo (some s) := by
  have h : lstrip_v ("v" ++ s) = lstrip_v s := by
    unfold lstrip_v
    rw [String.data_append]
    rfl
  simp [build_release_url, h]

/-- C6: a failed fetch for a requested version is wrapped in an error whose
message contains the requested version string and the underlying cause,
while the latest-release variant carries only the cause. -/
theorem get_release_info_error_spec (v e : String) :
    (get_release_info (some v) (Except.error e) =
       Except.error ("Failed to fetch release info for version " ++ v ++ ": " ++ e) ∧
     strHas ("Failed to fetch release info for version " ++ v ++ ": " ++ e) v = true ∧
     strHas ("Failed to fetch release info for version " ++ v ++ ": " ++ e) e = true) ∧
    get_release_info none (Except.error e) =
      Except.error ("Failed to fetch latest release info: " ++ e) := by
  refine ⟨⟨rfl, ?_, ?_⟩, rfl⟩
  · have h := strHas_append_middle "Failed to fetch release info for version " v (": " ++ e)
    rwa [← String.append_assoc] at h
  · exact strHas_append_right ("Failed to fetch release info for version " ++ v ++ ": ") e

/-- C3: for every OS name outside darwin/linux/windows, and for every Linux
run whose libc flavor resolves to manylinux while the normalized
architecture is outside the manylinux table, `get_platform_tag` fails with
an unsupported-platform error whose message contains both the OS string and
the raw (un-normalized) machine string. -/
theorem get_platform_tag_unsupported (system machine : String) (ldd_stderr : Option String)
    (h : (system ≠ "darwin" ∧ system ≠ "linux" ∧ system ≠ "windows") ∨
         (system = "linux" ∧ detectLibc ldd_stderr = "manylinux" ∧
          archMap machine ∉
            (["x86_64", "aarch64", "i686", "ppc64le", "s390x", "armv7l"] : List String))) :
    get_platform_tag system machine ldd_stderr =
      Except.error ("Unsupported platform: " ++ system ++ " " ++ machine) ∧
    strHas ("Unsupported platform: " ++ system ++ " " ++ machine) system = true ∧
    strHas ("Unsupported platform: " ++ system ++ " " ++ machine) machine = true := by
  refine ⟨?_, ?_, strHas_append_right ("Unsupported platform: " ++ system ++ " ") machine⟩
  · rcases h with ⟨h1, h2, h3⟩ | ⟨h1, h2, h3⟩
    · unfold get_platform_tag
      simp [beq_iff_eq, h1, h2, h3]
    · subst h1
      obtain ⟨n1, n2, n3, n4, n5, n6⟩ := by simpa using h3
      unfold get_platform_tag
      simp [beq_iff_eq, h2, n1, n2, n3, n4, n5, n6]
  · have h := strHas_append_middle "Unsupported platform: " system (" " ++ machine)
    rwa [← String.append_assoc] at h

/-- Witness for `get_platform_tag_unsupported` at the concrete pair
plan9 / vax. -/
theorem get_platform_tag_unsupported_witness :
    get_platform_tag "plan9" "vax" none =
      Except.error ("Unsupported platform: " ++ "plan9" ++ " " ++ "vax") ∧
    strHas ("Unsupported platform: " ++ "plan9" ++ " " ++ "vax") "plan9" = true ∧
    strHas ("Unsupported platform: " ++ "plan9" ++ " " ++ "vax") "vax" = true :=
  get_platform_tag_unsupported "plan9" "vax" none
    (Or.inl ⟨by decide, by decide, by decide⟩)

/-- C4: the libc flavor is classified as musl exactly when the `ldd`
invocation returned and its standard-error output contains the musl marker
(case-insensitively); a failed invocation defaults to manylinux; and under
the musl flavor the resolver returns exactly the single tag
`musllinux_1_2_` interpolated with the normalized architecture, for every
machine string including unrecognized ones. -/
theorem detectLibc_musl_spec :
    (∀ out, (detectLibc (some out) = "musllinux" ↔ strHas (strLower out) "musl" = true)) ∧
    detectLibc none = "manylinux" ∧
    (∀ machine out, strHas (strLower out) "musl" = true →
      get_platform_tag "linux" machine (some out) =
        Except.ok ["musllinux_1_2_" ++ archMap machine]) := by
  refine ⟨fun out => ?_, rfl, fun machine out h => ?_⟩
  · unfold detectLibc
    cases hm : strHas (strLower out) "musl" <;> simp [hm]
  · unfold get_platform_tag
    simp [detectLibc, h]

/-- Witness for `detectLibc_musl_spec` on an unrecognized architecture and
an upper-case musl banner. -/
theorem detectLibc_musl_spec_witness :
    get_platform_tag "linux" "riscv64" (some "MUSL libc (riscv64)") =
      Except.ok ["musllinux_1_2_" ++ archMap "riscv64"] :=
  detectLibc_musl_spec.2.2 "riscv64" "MUSL libc (riscv64)" (by decide)

/-- C10: on Linux with the manylinux flavor, the raw machine string `arm64`
hits the unsupported-platform error while `aarch64` yields the manylinux
aarch64 tag list, because the alias table maps `arm64` to itself and the
manylinux branch has no `arm64` entry. -/
theorem linux_arm64_unsupported (ldd_stderr : Option String)
    (h : detectLibc ldd_stderr = "manylinux") :
    archMap "arm64" = "arm64" ∧
    get_platform_tag "linux" "arm64" ldd_stderr =
      Except.error ("Unsupported platform: linux arm64") ∧
    get_platform_tag "linux" "aarch64" ldd_stderr =
      Except.ok ["manylinux_2_26_aarch64.manylinux_2_28_aarch64",
                 "manylinux_2_17_aarch64.manylinux2014_aarch64"] := by
  refine ⟨by decide, ?_, ?_⟩ <;>
  · unfold get_platform_tag
    simp only [h]
    rfl

/-- Witness for `linux_arm64_unsupported` with the subprocess observation
of a missing `ldd`, which defaults to manylinux. -/
theorem linux_arm64_unsupported_witness :
    archMap "arm64" = "arm64" ∧
    get_platform_tag "linux" "arm64" none =
      Except.error ("Unsupported platform: linux arm64") ∧
    get_platform_tag "linux" "aarch64" none =
      Except.ok ["manylinux_2_26_aarch64.manylinux_2_28_aarch64",
                 "manylinux_2_17_aarch64.manylinux2014_aarch64"] :=
  linux_arm64_unsupported none rfl

/-- C1: the outer loop of `find_wheel_asset` is over platform tags in
preference order and the inner loop over assets in list order, so when an
asset matching the second tag `t2` appears earlier in the list than the
first asset matching the preferred tag `t1`, the matcher still returns that
`t1` match. -/
theorem find_wheel_asset_tag_order (tool : String) (version : Option String)
    (t1 t2 : String) (xs ys zs : List Asset) (a b : Asset)
    (hb : assetMatches tool version t2 b = true)
    (ha : assetMatches tool version t1 a = true)
    (hfirst : ∀ c ∈ xs ++ b :: ys, assetMatches tool version t1 c = false) :
    find_wheel_asset (xs ++ b :: (ys ++ a :: zs)) tool [t1, t2] version = some a := by
  have _hb := hb
  have hsplit : xs ++ b :: (ys ++ a :: zs) = (xs ++ b :: ys) ++ (a :: zs) := by
    simp
  rw [hsplit]
  unfold find_wheel_asset
  rw [List.find?_append]
  have hnone : (xs ++ b :: ys).find? (assetMatches tool version t1) = none :=
    List.find?_eq_none.mpr (fun x hx => by simp [hfirst x hx])
  rw [hnone]
  simp [List.find?_cons, ha]

/-- Witness for `find_wheel_asset_tag_order`: with the dual manylinux tags
in reversed preference order, the earlier-listed 2_27 wheel is skipped in
favor of the 2_17 wheel matching the preferred tag. -/
theorem find_wheel_asset_tag_order_witness :
    find_wheel_asset
      [⟨"clang-format-20.1.8-py2.py3-none-manylinux_2_27_x86_64.manylinux_2_28_x86_64.whl", "", 0⟩,
       ⟨"clang-format-20.1.8-py2.py3-none-manylinux_2_17_x86_64.manylinux2014_x86_64.whl", "", 0⟩]
      "clang-format"
      ["manylinux_2_17_x86_64.manylinux2014_x86_64", "manylinux_2_27_x86_64.manylinux_2_28_x86_64"]
      (some "20.1.8") =
    some ⟨"clang-format-20.1.8-py2.py3-none-manylinux_2_17_x86_64.manylinux2014_x86_64.whl", "", 0⟩ :=
  find_wheel_asset_tag_order "clang-format" (some "20.1.8")
    "manylinux_2_17_x86_64.manylinux2014_x86_64" "manylinux_2_27_x86_64.manylinux_2_28_x86_64"
    [] [] []
    ⟨"clang-format-20.1.8-py2.py3-none-manylinux_2_17_x86_64.manylinux2014_x86_64.whl", "", 0⟩
    ⟨"clang-format-20.1.8-py2.py3-none-manylinux_2_27_x86_64.manylinux_2_28_x86_64.whl", "", 0⟩
    (by decide) (by decide) (by decide)

/-- C5: an asset is accepted by the matcher exactly when its name ends with
the wheel suffix, contains the platform tag as a substring, and starts with
the hyphenated pattern (tool name as given) or the underscored pattern
(hyphens replaced by underscores), each optionally followed by the version
and then the fixed `py2.py3-none-` segment; the two spellings are accepted
under the same remaining conditions. -/
theorem find_wheel_asset_accept_iff (tool tag : String) (version : Option String) (a : Asset) :
    find_wheel_asset [a] tool [tag] version = some a ↔
      (strEnds a.name ".whl" = true ∧ strHas a.name tag = true ∧
       (strStarts a.name (wheel_pattern tool version) = true ∨
        strStarts a.name (wheel_pattern (replace_dash_underscore tool) version) = true)) := by
  have hchar : assetMatches tool version tag a = true ↔
      (strEnds a.name ".whl" = true ∧ strHas a.name tag = true ∧
       (strStarts a.name (wheel_pattern tool version) = true ∨
        strStarts a.name (wheel_pattern (replace_dash_underscore tool) version) = true)) := by
    unfold assetMatches
    simp only [Bool.and_eq_true, Bool.or_eq_true]
    tauto
  have hsingle : find_wheel_asset [a] tool [tag] version = some a ↔
      assetMatches tool version tag a = true := by
    cases hpa : assetMatches tool version tag a with
    | true => simp [find_wheel_asset, List.find?_cons, hpa]
    | false => simp [find_wheel_asset, List.find?_cons, hpa]
  exact hsingle.trans hchar

/-- C2 evaluated on its own stated input: for hyphenated tool names the
listing mode joins the split parts from index 4 on, which still includes
the `none` token, so the printed strings carry a `none-` prefix instead of
being the bare platform substrings the inline comment (and the claim)
describe. -/
theorem list_platforms_hyphenated_includes_none :
    list_platforms "clang-tidy"
      [⟨"clang-tidy-1.0-py2.py3-none-manylinux_2_17_x86_64.manylinux2014_x86_64.whl", "", 0⟩,
       ⟨"clang-tidy-1.0-py2.py3-none-win_amd64.whl", "", 0⟩] =
      ["none-manylinux_2_17_x86_64.manylinux2014_x86_64", "none-win_amd64"] ∧
    list_platforms "clang-tidy"
      [⟨"clang-tidy-1.0-py2.py3-none-manylinux_2_17_x86_64.manylinux2014_x86_64.whl", "", 0⟩,
       ⟨"clang-tidy-1.0-py2.py3-none-win_amd64.whl", "", 0⟩] ≠
      ["manylinux_2_17_x86_64.manylinux2014_x86_64", "win_amd64"] := by
  constructor
  · decide
  · decide

end ClangToolsWheel
